import Mathlib

/-!
Verification of the device heartbeat-state subsystem of `open-balena-api`.

The repository ships the subsystem's tests (`test/03_device-state.ts`) and its
HTTP route table, while the heartbeat tracker module itself
(`src/features/device-heartbeat/index.ts`) is referenced only from those
tests.  The definitions below therefore embed the tracker from the
specification's component design (spec.md §3–§6), faithful to its words, and
embed the route table from the shipped source where it exists.  All times are
in milliseconds, modelled as `Nat`.
-/

namespace DeviceHeartbeat

/-- The heartbeat states, named as in the source's `DeviceOnlineStates` enum:
`Unknown`, `Online`, `Timeout`, `Offline`. -/
inductive DeviceOnlineStates
  | Unknown
  | Online
  | Timeout
  | Offline
deriving DecidableEq, Repr

/-- Modelled from the spec: `PollIntervalConfig` (§3) —
`{ deviceOverrideMs?, groupOverrideMs?, defaultMs, jitterFactor }`.
Intervals are rationals so the jitter multiplier (e.g. 1.5) is exact. -/
structure PollIntervalConfig where
  deviceOverrideMs : Option ℚ
  groupOverrideMs : Option ℚ
  defaultMs : ℚ
  jitterFactor : ℚ
deriving DecidableEq

/-- Modelled from the spec: the configured override used by the effective
interval — the device-level override, else the group-level override, else the
system default (`deviceOverrideMs ?? groupOverrideMs ?? defaultMs`, §3). -/
def PollIntervalConfig.configuredOverride (c : PollIntervalConfig) : ℚ :=
  c.deviceOverrideMs.getD (c.groupOverrideMs.getD c.defaultMs)

/-- Modelled from the spec: `getEffectivePollInterval` (§4.1, §6) —
`max(defaultMs, deviceOverrideMs ?? groupOverrideMs ?? defaultMs) * jitterFactor`. -/
def getEffectivePollInterval (c : PollIntervalConfig) : ℚ :=
  max c.defaultMs c.configuredOverride * c.jitterFactor

/-- Modelled from the spec: `CacheEntry` (§3) — the shared write-through cache
entry `{ currentState, writtenAt }` plus the time of the last TTL refresh
(§4.4 step 1 refreshes the TTL of a hit entry without re-persisting). -/
structure CacheEntry where
  currentState : DeviceOnlineStates
  writtenAt : Nat
  ttlRefreshedAt : Nat
deriving DecidableEq, Repr

/-- Modelled from the spec: a `change` event `{oldState, newState, changedAt}`
(§6), emitted exactly once per durable write that actually alters the stored
state value (§4.4). -/
structure ChangeEvent where
  oldState : DeviceOnlineStates
  newState : DeviceOnlineStates
  changedAt : Nat
deriving DecidableEq, Repr

/-- Modelled from the spec: `ScheduledTransition` (§3) —
`{ fromGeneration, targetState, fireAt }` enqueued into the delayed-delivery
queue (the device id is implicit: the model tracks a single device). -/
structure ScheduledTransition where
  fromGeneration : Nat
  targetState : DeviceOnlineStates
  fireAt : Nat
deriving DecidableEq, Repr

/-- Modelled from the spec: the per-device tracker state — the durable store's
state value and last-changed timestamp (§4.5), the shared cache entry (§4.2),
and the device's current generation token (§3). -/
structure TrackerState where
  durable : DeviceOnlineStates
  lastChanged : Option Nat
  cache : Option CacheEntry
  generation : Nat
deriving DecidableEq, Repr

/-- Modelled from the spec: a freshly provisioned device — `Unknown` is the
only initial state (§4.4), no change timestamp (§8), cache-cold (§3). -/
def initialTracker : TrackerState :=
  { durable := .Unknown, lastChanged := none, cache := none, generation := 0 }

/-- Modelled from the spec: the tracker's configuration knobs (§6) —
`pollIntervalMs` is the effective (already jittered) poll interval used to
schedule the online→timeout downgrade, `timeoutGraceMs` the fixed grace from
`Timeout` to `Offline`, `cacheTtlMs` the shared cache entry TTL, and
`onlineUpdateCacheTimeoutMs` the `API_HEARTBEAT_STATE_ONLINE_UPDATE_CACHE_TIMEOUT`
knob (`none` = trust the cache until its own TTL only). -/
structure HeartbeatConfig where
  pollIntervalMs : Nat
  timeoutGraceMs : Nat
  cacheTtlMs : Nat
  onlineUpdateCacheTimeoutMs : Option Nat
deriving DecidableEq, Repr

/-- Modelled from the spec: the outcome of processing one inbound event —
the new tracker state, the emitted change notifications, the number of
durable writes performed, and the newly scheduled downgrade transitions. -/
structure StepResult where
  state : TrackerState
  events : List ChangeEvent
  writes : Nat
  scheduled : List ScheduledTransition
deriving DecidableEq, Repr

/-- Modelled from the spec: `StatePersister.apply` (§4.5) — the durable write
is an idempotent no-op if the durable value already equals the target state
(the change timestamp is not advanced); otherwise it writes, sets the
last-changed timestamp, and raises one change notification. -/
def applyState (now : Nat) (s : TrackerState) (target : DeviceOnlineStates) :
    TrackerState × List ChangeEvent :=
  if s.durable = target then
    (s, [])
  else
    ({ s with durable := target, lastChanged := some now },
      [{ oldState := s.durable, newState := target, changedAt := now }])

/-- Modelled from the spec: the fast-path gate (§4.4 step 1) — a heartbeat may
skip the durable write iff the cache entry exists, is unexpired, records
`Online`, and the online-update-cache timeout has not elapsed since the entry
was durably written (`none` = trust the cache until its own TTL only). -/
def cacheHit (cfg : HeartbeatConfig) (now : Nat) (entry : CacheEntry) : Bool :=
  decide (now < entry.ttlRefreshedAt + cfg.cacheTtlMs) &&
  decide (entry.currentState = .Online) &&
  (match cfg.onlineUpdateCacheTimeoutMs with
   | none => true
   | some n => decide (now < entry.writtenAt + n))

/-- Modelled from the spec: the slow path of §4.4 step 1 — perform a durable
write to `Online`, update the cache, bump the generation, and (re)schedule the
online→timeout transition at `now + effectiveInterval`. -/
def heartbeatWrite (cfg : HeartbeatConfig) (now : Nat) (s : TrackerState) :
    StepResult :=
  let ss := applyState now s .Online
  { state :=
      { ss.1 with
        cache := some { currentState := .Online, writtenAt := now, ttlRefreshedAt := now }
        generation := s.generation + 1 }
    events := ss.2
    writes := 1
    scheduled :=
      [{ fromGeneration := s.generation + 1, targetState := .Timeout,
         fireAt := now + cfg.pollIntervalMs }] }

/-- Modelled from the spec: `captureHeartbeat` (§4.4 step 1, §6) — on a
cache hit, skip the durable write but refresh the cache TTL and re-arm the
downgrade schedule with a new generation; otherwise take the durable-write
path. -/
def captureHeartbeat (cfg : HeartbeatConfig) (now : Nat) (s : TrackerState) :
    StepResult :=
  match s.cache with
  | some entry =>
    if cacheHit cfg now entry then
      { state :=
          { s with
            cache := some { entry with ttlRefreshedAt := now }
            generation := s.generation + 1 }
        events := []
        writes := 0
        scheduled :=
          [{ fromGeneration := s.generation + 1, targetState := .Timeout,
             fireAt := now + cfg.pollIntervalMs }] }
    else
      heartbeatWrite cfg now s
  | none => heartbeatWrite cfg now s

/-- Modelled from the spec: §4.4 step 2 — on `DownscaleFired(target, gen)`,
discard the event if the generation does not match the device's current
generation (stale); on `Timeout`, durable-write `Timeout`, update the cache,
and schedule timeout→offline after the grace period; on `Offline`,
durable-write `Offline`, delete the cache entry, and schedule nothing. -/
def processDownscaleFired (cfg : HeartbeatConfig) (now : Nat) (s : TrackerState)
    (msg : ScheduledTransition) : StepResult :=
  if msg.fromGeneration ≠ s.generation then
    { state := s, events := [], writes := 0, scheduled := [] }
  else if msg.targetState = .Timeout then
    let ss := applyState now s .Timeout
    { state :=
        { ss.1 with
          cache := some { currentState := .Timeout, writtenAt := now, ttlRefreshedAt := now } }
      events := ss.2
      writes := 1
      scheduled :=
        [{ fromGeneration := s.generation, targetState := .Offline,
           fireAt := now + cfg.timeoutGraceMs }] }
  else if msg.targetState = .Offline then
    let ss := applyState now s .Offline
    { state := { ss.1 with cache := none }
      events := ss.2
      writes := 1
      scheduled := [] }
  else
    { state := s, events := [], writes := 0, scheduled := [] }

/-- Modelled from the spec: a sequence of heartbeats at the given times with
no intervening downgrade firings, accumulating the total change-event and
durable-write counts (used for the repeated-heartbeat dedupe properties of
§8). -/
def runHeartbeats (cfg : HeartbeatConfig) (s : TrackerState) :
    List Nat → TrackerState × Nat × Nat
  | [] => (s, 0, 0)
  | t :: ts =>
    let r := captureHeartbeat cfg t s
    let rest := runHeartbeats cfg r.state ts
    (rest.1, r.events.length + rest.2.1, r.writes + rest.2.2)

/-- A chain of poll times each of which arrives while the cache entry
refreshed at the previous time is still unexpired (`t < previous + ttl`). -/
def freshChain (ttl : Nat) : Nat → List Nat → Bool
  | _, [] => true
  | base, t :: ts => decide (t < base + ttl) && freshChain ttl t ts

/-- A chain of poll times each at or after the previous durable write
(non-decreasing wall clock across the run). -/
def writeChain : Nat → List Nat → Bool
  | _, [] => true
  | base, t :: ts => decide (base ≤ t) && writeChain t ts

/-- Modelled from the spec: the observed downgrade-consumer behavior in the
known race window (§7(c) is the design; §9 records that the source's own
tests document "won't fix" inconsistency windows between cache expiry and
stale-message consumption): once the cache entry has been deleted
out-of-band, the consumer has no generation evidence left and applies the
fired downgrade unconditionally. -/
def processDownscaleFiredObserved (cfg : HeartbeatConfig) (now : Nat)
    (s : TrackerState) (msg : ScheduledTransition) : StepResult :=
  if msg.targetState = .Timeout then
    let ss := applyState now s .Timeout
    { state :=
        { ss.1 with
          cache := some { currentState := .Timeout, writtenAt := now, ttlRefreshedAt := now } }
      events := ss.2
      writes := 1
      scheduled :=
        [{ fromGeneration := msg.fromGeneration, targetState := .Offline,
           fireAt := now + cfg.timeoutGraceMs }] }
  else if msg.targetState = .Offline then
    let ss := applyState now s .Offline
    { state := { ss.1 with cache := none }
      events := ss.2
      writes := 1
      scheduled := [] }
  else
    { state := s, events := [], writes := 0, scheduled := [] }

/-- The credential presented by an inbound request: a device API key, a user
token, or an invalid/expired credential. -/
inductive Credential
  | deviceApiKey
  | userToken
  | expiredOrInvalid
deriving DecidableEq, Repr

/-- The two device-state routes of the shipped route table: from the source's
route setup, `GET /device/v2/:uuid/state` carries the
`registerDeviceStateEvent` middleware while `PATCH /device/v2/:uuid/state`
does not. -/
inductive DeviceStateRoute
  | stateGet
  | statePatch
deriving DecidableEq, Repr

/-- From the source's route setup: only the state GET route is wired through
`registerDeviceStateEvent('params.uuid')`; the state PATCH route's middleware
chain has no heartbeat-registering middleware. -/
def hasRegisterDeviceStateEvent : DeviceStateRoute → Bool
  | .stateGet => true
  | .statePatch => false

/-- Modelled from the spec: the `registerDeviceStateEvent` middleware records
a heartbeat only for requests that the external auth boundary accepted as
device-key-authenticated (§6 `captureHeartbeat`, §7(a): a rejected signal
must not reach the tracker; user-token requests carry no device API key, so
no heartbeat is registered for them). -/
def registersHeartbeat (r : DeviceStateRoute) (c : Credential) : Bool :=
  hasRegisterDeviceStateEvent r && decide (c = .deviceApiKey)

/-- Modelled from the spec: handling of a device-state request at the HTTP
boundary (§6, §7(a)) — an invalid or expired credential is rejected with 401
before any heartbeat is recorded; an accepted request triggers
`captureHeartbeat` only when its route and credential register heartbeats.
Returns the HTTP status together with the tracker step outcome. -/
def handleStateRequest (cfg : HeartbeatConfig) (now : Nat) (r : DeviceStateRoute)
    (c : Credential) (s : TrackerState) : Nat × StepResult :=
  if c = .expiredOrInvalid then
    (401, { state := s, events := [], writes := 0, scheduled := [] })
  else if registersHeartbeat r c then
    (200, captureHeartbeat cfg now s)
  else
    (200, { state := s, events := [], writes := 0, scheduled := [] })

/-- Modelled from the spec: the stored telemetry fields exercised by the
metrics-throttle tests (`cpu_usage`, `cpu_temp`). -/
structure DeviceMetrics where
  cpu_usage : Nat
  cpu_temp : Nat
deriving DecidableEq, Repr

/-- Modelled from the spec: `ReportThrottle.shouldPersist` (§4.6) — a
telemetry report is persisted iff no fresh throttle entry exists in the
shared cache (the entry records when the last persisted report was written;
whoever wrote it, its freshness alone gates the decision fleet-wide). -/
def shouldPersistMetrics (ttlMs now : Nat) (entry : Option Nat) : Bool :=
  match entry with
  | some writtenAt => decide (writtenAt + ttlMs ≤ now)
  | none => true

/-- Modelled from the spec: applying a telemetry-only state patch through the
report throttle (§4.6) — if a fresh throttle entry exists the new values are
dropped (not persisted); otherwise the patch is applied to the durable store
and a new throttle entry is written. -/
def applyMetricsReport (ttlMs now : Nat) (entry : Option Nat)
    (stored incoming : DeviceMetrics) : Option Nat × DeviceMetrics :=
  if shouldPersistMetrics ttlMs now entry then
    (some now, incoming)
  else
    (entry, stored)

/-- A concrete configuration used by witness theorems: effective poll
interval 3000ms, timeout grace 1000ms, cache TTL 60000ms, online-update
cache timeout `null`. -/
def wCfg : HeartbeatConfig :=
  { pollIntervalMs := 3000, timeoutGraceMs := 1000, cacheTtlMs := 60000,
    onlineUpdateCacheTimeoutMs := none }

/-- A concrete tracker state used by witness theorems: an `Offline` device
with no cache entry, as the machine leaves it after a durable `Offline`
write. -/
def offlineTracker : TrackerState :=
  { durable := .Offline, lastChanged := some 3, cache := none, generation := 5 }

/-- A concrete tracker state used by witness theorems: an `Online` device
with a fresh cache entry, as the machine leaves it after a heartbeat. -/
def onlineTracker : TrackerState :=
  { durable := .Online, lastChanged := some 0
    cache := some { currentState := .Online, writtenAt := 0, ttlRefreshedAt := 0 }
    generation := 1 }

/-- A concrete fresh `Online` cache entry used by witness theorems. -/
def wOnlineEntry : CacheEntry :=
  { currentState := .Online, writtenAt := 0, ttlRefreshedAt := 0 }

/-- A concrete tracker state used by witness theorems: the durable state was
changed out-of-band to `Offline` while the cache entry still records a fresh
`Online`. -/
def divergedTracker : TrackerState :=
  { durable := .Offline, lastChanged := some 50, cache := some wOnlineEntry
    generation := 1 }

/-- A concrete configuration with the online-update cache timeout set to 0,
used by witness theorems. -/
def zCfg : HeartbeatConfig :=
  { pollIntervalMs := 3000, timeoutGraceMs := 1000, cacheTtlMs := 60000,
    onlineUpdateCacheTimeoutMs := some 0 }

/-- Concrete stored metrics used by witness theorems (the values persisted
by the test's first full state patch). -/
def storedM : DeviceMetrics := { cpu_usage := 34, cpu_temp := 56 }

/-- Concrete incoming metrics used by witness theorems (the values of the
test's throttled telemetry-only patch). -/
def incomingM : DeviceMetrics := { cpu_usage := 90, cpu_temp := 90 }

/-- The tracker state of the race scenario in the source's tests: the device
went `Online` on a heartbeat at 0ms (generation 1), was downgraded to
`Timeout` when that generation's message fired at 3000ms, had its cache
entry deleted out-of-band (emulating cache expiry during API downtime) while
the stale timeout→offline message of generation 1 was still pending, and
then received a heartbeat at 3500ms, which durably wrote `Online` and bumped
the generation to 2. -/
def staleRaceState : TrackerState :=
  (captureHeartbeat wCfg 3500
    { (processDownscaleFired wCfg 3000
        (captureHeartbeat wCfg 0 initialTracker).state
        { fromGeneration := 1, targetState := .Timeout, fireAt := 3000 }).state
      with cache := none }).state

/-- A concrete poll-interval configuration used by witness theorems: a
device-level override (1900ms) strictly below the 2000ms system default,
shadowing a group-level override, with jitter factor 2. -/
def wPollCfg : PollIntervalConfig :=
  { deviceOverrideMs := some 1900, groupOverrideMs := some 123000,
    defaultMs := 2000, jitterFactor := 2 }

/-- C6: `getEffectivePollInterval` equals
`max(systemDefault, configuredOverride) * jitterFactor`, where the
device-level override takes precedence over the group-level override; an
override strictly below the system default never reduces the effective
interval below `systemDefault * jitterFactor`. -/
theorem C6_effective_poll_interval (c : PollIntervalConfig)
    (hj : 0 ≤ c.jitterFactor) :
    getEffectivePollInterval c =
        max c.defaultMs c.configuredOverride * c.jitterFactor ∧
    (∀ d, c.deviceOverrideMs = some d → c.configuredOverride = d) ∧
    (c.configuredOverride < c.defaultMs →
        getEffectivePollInterval c = c.defaultMs * c.jitterFactor) ∧
    c.defaultMs * c.jitterFactor ≤ getEffectivePollInterval c := by
  refine ⟨rfl, ?_, ?_, ?_⟩
  · intro d hd
    simp [PollIntervalConfig.configuredOverride, hd]
  · intro hlt
    simp [getEffectivePollInterval, max_eq_left hlt.le]
  · exact mul_le_mul_of_nonneg_right (le_max_left _ _) hj

/-- Witness for C6 at the concrete configuration `wPollCfg`. -/
theorem C6_effective_poll_interval_witness :
    0 ≤ wPollCfg.jitterFactor ∧
    (getEffectivePollInterval wPollCfg =
        max wPollCfg.defaultMs wPollCfg.configuredOverride * wPollCfg.jitterFactor ∧
    (∀ d, wPollCfg.deviceOverrideMs = some d → wPollCfg.configuredOverride = d) ∧
    (wPollCfg.configuredOverride < wPollCfg.defaultMs →
        getEffectivePollInterval wPollCfg = wPollCfg.defaultMs * wPollCfg.jitterFactor) ∧
    wPollCfg.defaultMs * wPollCfg.jitterFactor ≤ getEffectivePollInterval wPollCfg) :=
  ⟨by decide, C6_effective_poll_interval wPollCfg (by decide)⟩

/-- C1: a freshly provisioned device reports `Unknown` with a null
last-changed timestamp, and a single heartbeat from such a never-seen device
transitions it to `Online` and sets a non-null change timestamp strictly
after the heartbeat's send time. -/
theorem C1_fresh_device_first_heartbeat (cfg : HeartbeatConfig)
    (send now : Nat) (h : send < now) :
    initialTracker.durable = .Unknown ∧
    initialTracker.lastChanged = none ∧
    (captureHeartbeat cfg now initialTracker).state.durable = .Online ∧
    ∃ t, (captureHeartbeat cfg now initialTracker).state.lastChanged = some t ∧
      send < t := by
  refine ⟨rfl, rfl, ?_, ?_⟩
  · simp [captureHeartbeat, initialTracker, heartbeatWrite, applyState]
  · exact ⟨now,
      by simp [captureHeartbeat, initialTracker, heartbeatWrite, applyState], h⟩

/-- Witness for C1: heartbeat sent at 5ms, processed at 10ms. -/
theorem C1_fresh_device_first_heartbeat_witness :
    initialTracker.durable = .Unknown ∧
    initialTracker.lastChanged = none ∧
    (captureHeartbeat wCfg 10 initialTracker).state.durable = .Online ∧
    ∃ t, (captureHeartbeat wCfg 10 initialTracker).state.lastChanged = some t ∧
      5 < t :=
  C1_fresh_device_first_heartbeat wCfg 5 10 (by decide)

/-- C2: a heartbeat arriving while the durable state is `Timeout` or
`Offline` (the cache entry, if present, recording that same state)
transitions the device back to `Online`, emitting exactly one change event
and setting the change timestamp to the heartbeat's processing time; and no
heartbeat can move the state downward: for every state, a heartbeat either
forces `Online` or leaves the durable state unchanged. -/
theorem C2_heartbeat_recovers (cfg : HeartbeatConfig) (now : Nat)
    (s : TrackerState)
    (hdown : s.durable = .Timeout ∨ s.durable = .Offline)
    (hcoh : ∀ e, s.cache = some e → e.currentState = s.durable) :
    (captureHeartbeat cfg now s).state.durable = .Online ∧
    (captureHeartbeat cfg now s).events.length = 1 ∧
    (captureHeartbeat cfg now s).state.lastChanged = some now ∧
    (∀ s2 : TrackerState,
      (captureHeartbeat cfg now s2).state.durable = .Online ∨
      (captureHeartbeat cfg now s2).state.durable = s2.durable) := by
  have hne : s.durable ≠ .Online := by
    rcases hdown with h | h <;> simp [h]
  have hwrite : captureHeartbeat cfg now s = heartbeatWrite cfg now s := by
    cases hc : s.cache with
    | none => simp [captureHeartbeat, hc]
    | some e =>
      have hnotOn : ¬e.currentState = .Online := by
        rw [hcoh e hc]; exact hne
      simp [captureHeartbeat, hc, cacheHit, hnotOn]
  refine ⟨?_, ?_, ?_, ?_⟩
  · rw [hwrite]; simp [heartbeatWrite, applyState, hne]
  · rw [hwrite]; simp [heartbeatWrite, applyState, hne]
  · rw [hwrite]; simp [heartbeatWrite, applyState, hne]
  · intro s2
    cases hc : s2.cache with
    | none =>
      left
      by_cases hOn : s2.durable = .Online <;>
        simp [captureHeartbeat, hc, heartbeatWrite, applyState, hOn]
    | some e =>
      by_cases hhit : cacheHit cfg now e
      · right; simp [captureHeartbeat, hc, hhit]
      · left
        by_cases hOn : s2.durable = .Online <;>
          simp [captureHeartbeat, hc, hhit, heartbeatWrite, applyState, hOn]

/-- Witness for C2: an `Offline` device with no cache entry, heartbeat at
7ms. -/
theorem C2_heartbeat_recovers_witness :
    (captureHeartbeat wCfg 7 offlineTracker).state.durable = .Online ∧
    (captureHeartbeat wCfg 7 offlineTracker).events.length = 1 ∧
    (captureHeartbeat wCfg 7 offlineTracker).state.lastChanged = some 7 ∧
    (∀ s2 : TrackerState,
      (captureHeartbeat wCfg 7 s2).state.durable = .Online ∨
      (captureHeartbeat wCfg 7 s2).state.durable = s2.durable) :=
  C2_heartbeat_recovers wCfg 7 offlineTracker (Or.inr rfl) (by simp [offlineTracker])

/-- C3: with no further heartbeats, an `Online` device's heartbeat schedules
exactly one online→timeout downgrade at `now + effectiveInterval`; firing it
downgrades to `Timeout` with exactly one change event and an updated change
timestamp, scheduling exactly one timeout→offline downgrade after the fixed
grace period; firing that yields a durable `Offline` write with exactly one
change event and an updated change timestamp, deletes the cache entry, and
schedules no further transition. -/
theorem C3_timeout_offline_downgrades (cfg : HeartbeatConfig) (t0 : Nat)
    (s : TrackerState) (hOn : s.durable = .Online) :
    (captureHeartbeat cfg t0 s).scheduled =
      [{ fromGeneration := s.generation + 1, targetState := .Timeout,
         fireAt := t0 + cfg.pollIntervalMs }] ∧
    (captureHeartbeat cfg t0 s).state.generation = s.generation + 1 ∧
    processDownscaleFired cfg (t0 + cfg.pollIntervalMs)
        (captureHeartbeat cfg t0 s).state
        { fromGeneration := s.generation + 1, targetState := .Timeout,
          fireAt := t0 + cfg.pollIntervalMs } =
      { state :=
          { durable := .Timeout
            lastChanged := some (t0 + cfg.pollIntervalMs)
            cache := some
              { currentState := .Timeout
                writtenAt := t0 + cfg.pollIntervalMs
                ttlRefreshedAt := t0 + cfg.pollIntervalMs }
            generation := s.generation + 1 }
        events :=
          [{ oldState := .Online, newState := .Timeout,
             changedAt := t0 + cfg.pollIntervalMs }]
        writes := 1
        scheduled :=
          [{ fromGeneration := s.generation + 1, targetState := .Offline,
             fireAt := t0 + cfg.pollIntervalMs + cfg.timeoutGraceMs }] } ∧
    processDownscaleFired cfg (t0 + cfg.pollIntervalMs + cfg.timeoutGraceMs)
        { durable := .Timeout
          lastChanged := some (t0 + cfg.pollIntervalMs)
          cache := some
            { currentState := .Timeout
              writtenAt := t0 + cfg.pollIntervalMs
              ttlRefreshedAt := t0 + cfg.pollIntervalMs }
          generation := s.generation + 1 }
        { fromGeneration := s.generation + 1, targetState := .Offline,
          fireAt := t0 + cfg.pollIntervalMs + cfg.timeoutGraceMs } =
      { state :=
          { durable := .Offline
            lastChanged := some (t0 + cfg.pollIntervalMs + cfg.timeoutGraceMs)
            cache := none
            generation := s.generation + 1 }
        events :=
          [{ oldState := .Timeout, newState := .Offline,
             changedAt := t0 + cfg.pollIntervalMs + cfg.timeoutGraceMs }]
        writes := 1
        scheduled := [] } := by
  have hstate : (captureHeartbeat cfg t0 s).state.durable = .Online ∧
      (captureHeartbeat cfg t0 s).state.lastChanged = s.lastChanged ∧
      (captureHeartbeat cfg t0 s).state.generation = s.generation + 1 := by
    cases hc : s.cache with
    | none => simp [captureHeartbeat, hc, heartbeatWrite, applyState, hOn]
    | some e =>
      by_cases hhit : cacheHit cfg t0 e
      · simp [captureHeartbeat, hc, hhit, hOn]
      · simp [captureHeartbeat, hc, hhit, heartbeatWrite, applyState, hOn]
  obtain ⟨h1, h2, h3⟩ := hstate
  refine ⟨?_, h3, ?_, ?_⟩
  · cases hc : s.cache with
    | none => simp [captureHeartbeat, hc, heartbeatWrite]
    | some e =>
      by_cases hhit : cacheHit cfg t0 e
      · simp [captureHeartbeat, hc, hhit]
      · simp [captureHeartbeat, hc, hhit, heartbeatWrite]
  · simp [processDownscaleFired, applyState, h1, h2, h3]
  · simp [processDownscaleFired, applyState]

/-- Witness for C3 at a concrete `Online` state and configuration. -/
theorem C3_timeout_offline_downgrades_witness :
    onlineTracker.durable = .Online ∧
    ((captureHeartbeat wCfg 100 onlineTracker).scheduled =
      [{ fromGeneration := onlineTracker.generation + 1, targetState := .Timeout,
         fireAt := 100 + wCfg.pollIntervalMs }] ∧
    (captureHeartbeat wCfg 100 onlineTracker).state.generation =
      onlineTracker.generation + 1 ∧
    processDownscaleFired wCfg (100 + wCfg.pollIntervalMs)
        (captureHeartbeat wCfg 100 onlineTracker).state
        { fromGeneration := onlineTracker.generation + 1, targetState := .Timeout,
          fireAt := 100 + wCfg.pollIntervalMs } =
      { state :=
          { durable := .Timeout
            lastChanged := some (100 + wCfg.pollIntervalMs)
            cache := some
              { currentState := .Timeout
                writtenAt := 100 + wCfg.pollIntervalMs
                ttlRefreshedAt := 100 + wCfg.pollIntervalMs }
            generation := onlineTracker.generation + 1 }
        events :=
          [{ oldState := .Online, newState := .Timeout,
             changedAt := 100 + wCfg.pollIntervalMs }]
        writes := 1
        scheduled :=
          [{ fromGeneration := onlineTracker.generation + 1, targetState := .Offline,
             fireAt := 100 + wCfg.pollIntervalMs + wCfg.timeoutGraceMs }] } ∧
    processDownscaleFired wCfg (100 + wCfg.pollIntervalMs + wCfg.timeoutGraceMs)
        { durable := .Timeout
          lastChanged := some (100 + wCfg.pollIntervalMs)
          cache := some
            { currentState := .Timeout
              writtenAt := 100 + wCfg.pollIntervalMs
              ttlRefreshedAt := 100 + wCfg.pollIntervalMs }
          generation := onlineTracker.generation + 1 }
        { fromGeneration := onlineTracker.generation + 1, targetState := .Offline,
          fireAt := 100 + wCfg.pollIntervalMs + wCfg.timeoutGraceMs } =
      { state :=
          { durable := .Offline
            lastChanged := some (100 + wCfg.pollIntervalMs + wCfg.timeoutGraceMs)
            cache := none
            generation := onlineTracker.generation + 1 }
        events :=
          [{ oldState := .Timeout, newState := .Offline,
             changedAt := 100 + wCfg.pollIntervalMs + wCfg.timeoutGraceMs }]
        writes := 1
        scheduled := [] }) :=
  ⟨rfl, C3_timeout_offline_downgrades wCfg 100 onlineTracker rfl⟩

/-- C4: with `onlineUpdateCacheTimeoutMs = null`, while the cache entry is
fresh and records `Online`, repeated heartbeats cause zero change events and
zero durable writes, and leave the durable state and change timestamp
exactly as they were — including when the durable state has diverged
out-of-band from the cache (the statement quantifies over every durable
value, so a divergent value stays unchanged). -/
theorem C4_null_timeout_trusts_cache (cfg : HeartbeatConfig) (ts : List Nat) :
    ∀ (s : TrackerState) (e : CacheEntry),
    cfg.onlineUpdateCacheTimeoutMs = none →
    s.cache = some e →
    e.currentState = .Online →
    freshChain cfg.cacheTtlMs e.ttlRefreshedAt ts = true →
    (runHeartbeats cfg s ts).2.1 = 0 ∧
    (runHeartbeats cfg s ts).2.2 = 0 ∧
    (runHeartbeats cfg s ts).1.durable = s.durable ∧
    (runHeartbeats cfg s ts).1.lastChanged = s.lastChanged := by
  induction ts with
  | nil =>
    intro s e _ _ _ _
    simp [runHeartbeats]
  | cons t ts ih =>
    intro s e hnull hc hOn hchain
    rw [freshChain, Bool.and_eq_true, decide_eq_true_eq] at hchain
    obtain ⟨hlt, hrest⟩ := hchain
    have hhit : cacheHit cfg t e = true := by
      simp [cacheHit, hnull, hOn, hlt]
    have hstep : captureHeartbeat cfg t s =
        { state :=
            { s with
              cache := some { e with ttlRefreshedAt := t }
              generation := s.generation + 1 }
          events := []
          writes := 0
          scheduled :=
            [{ fromGeneration := s.generation + 1, targetState := .Timeout,
               fireAt := t + cfg.pollIntervalMs }] } := by
      simp [captureHeartbeat, hc, hhit]
    have hrec := ih
      { s with
        cache := some { e with ttlRefreshedAt := t }
        generation := s.generation + 1 }
      { e with ttlRefreshedAt := t } hnull rfl hOn hrest
    simp only [runHeartbeats, hstep] at *
    exact ⟨by simpa using hrec.1, by simpa using hrec.2.1,
      by simpa using hrec.2.2.1, by simpa using hrec.2.2.2⟩

/-- Witness for C4: a device whose durable state was changed out-of-band to
`Offline` while its cache entry records a fresh `Online`; three heartbeats
within the TTL change nothing. -/
theorem C4_null_timeout_trusts_cache_witness :
    wCfg.onlineUpdateCacheTimeoutMs = none ∧
    divergedTracker.cache = some wOnlineEntry ∧
    wOnlineEntry.currentState = .Online ∧
    freshChain wCfg.cacheTtlMs wOnlineEntry.ttlRefreshedAt [100, 200, 300] = true ∧
    ((runHeartbeats wCfg divergedTracker [100, 200, 300]).2.1 = 0 ∧
    (runHeartbeats wCfg divergedTracker [100, 200, 300]).2.2 = 0 ∧
    (runHeartbeats wCfg divergedTracker [100, 200, 300]).1.durable =
      divergedTracker.durable ∧
    (runHeartbeats wCfg divergedTracker [100, 200, 300]).1.lastChanged =
      divergedTracker.lastChanged) :=
  ⟨rfl, rfl, rfl, by decide,
    C4_null_timeout_trusts_cache wCfg [100, 200, 300] divergedTracker
      wOnlineEntry rfl rfl rfl (by decide)⟩

/-- Helper: with the online-update cache timeout set to 0, every heartbeat of
a run at non-decreasing times over an already-`Online` device misses the
fast-path gate and performs a durable write, while the idempotent persister
never advances the change timestamp. -/
theorem runHeartbeats_zero_timeout_from_online (cfg : HeartbeatConfig)
    (h0 : cfg.onlineUpdateCacheTimeoutMs = some 0) (ts : List Nat) :
    ∀ (s : TrackerState) (base : Nat), s.durable = .Online →
    (∀ e, s.cache = some e → e.writtenAt ≤ base) →
    writeChain base ts = true →
    (runHeartbeats cfg s ts).2.2 = ts.length ∧
    (runHeartbeats cfg s ts).1.lastChanged = s.lastChanged ∧
    (runHeartbeats cfg s ts).1.durable = .Online := by
  induction ts with
  | nil =>
    intro s base hOn _ _
    simp [runHeartbeats, hOn]
  | cons t ts ih =>
    intro s base hOn hw hchain
    rw [writeChain, Bool.and_eq_true, decide_eq_true_eq] at hchain
    obtain ⟨hle, hrest⟩ := hchain
    have hmiss : captureHeartbeat cfg t s = heartbeatWrite cfg t s := by
      cases hc : s.cache with
      | none => simp [captureHeartbeat, hc]
      | some e =>
        have hwe : e.writtenAt ≤ t := Nat.le_trans (hw e hc) hle
        have hhit : cacheHit cfg t e = false := by
          simp only [cacheHit, h0, Bool.and_eq_false_iff]
          right
          simpa using Nat.not_lt.mpr hwe
        simp [captureHeartbeat, hc, hhit]
    have hstep : heartbeatWrite cfg t s =
        { state :=
            { s with
              cache := some { currentState := .Online, writtenAt := t, ttlRefreshedAt := t }
              generation := s.generation + 1 }
          events := []
          writes := 1
          scheduled :=
            [{ fromGeneration := s.generation + 1, targetState := .Timeout,
               fireAt := t + cfg.pollIntervalMs }] } := by
      simp [heartbeatWrite, applyState, hOn]
    have hrec := ih
      { s with
        cache := some { currentState := .Online, writtenAt := t, ttlRefreshedAt := t }
        generation := s.generation + 1 }
      t hOn (by intro e he; cases he; exact Nat.le_refl t) hrest
    simp only [runHeartbeats, hmiss, hstep]
    refine ⟨?_, by simpa using hrec.2.1, by simpa using hrec.2.2⟩
    have h1 := hrec.1
    simp only [List.length_cons]
    omega

/-- C7: with `onlineUpdateCacheTimeoutMs = 0`, every heartbeat of a run at
non-decreasing times performs a durable write of the `Online` state, but only
the first heartbeat since the last actual state change advances the
last-changed timestamp: the final timestamp is the first heartbeat's time,
untouched by every subsequent heartbeat. -/
theorem C7_zero_timeout_always_repersists (cfg : HeartbeatConfig)
    (s : TrackerState) (t : Nat) (rest : List Nat)
    (h0 : cfg.onlineUpdateCacheTimeoutMs = some 0)
    (hne : s.durable ≠ .Online)
    (hw : ∀ e, s.cache = some e → e.writtenAt ≤ t)
    (hchain : writeChain t rest = true) :
    (runHeartbeats cfg s (t :: rest)).2.2 = (t :: rest).length ∧
    (runHeartbeats cfg s (t :: rest)).1.lastChanged = some t ∧
    (runHeartbeats cfg s (t :: rest)).1.durable = .Online := by
  have hmiss : captureHeartbeat cfg t s = heartbeatWrite cfg t s := by
    cases hc : s.cache with
    | none => simp [captureHeartbeat, hc]
    | some e =>
      have hwe : e.writtenAt ≤ t := hw e hc
      have hhit : cacheHit cfg t e = false := by
        simp only [cacheHit, h0, Bool.and_eq_false_iff]
        right
        simpa using Nat.not_lt.mpr hwe
      simp [captureHeartbeat, hc, hhit]
  have hstep : heartbeatWrite cfg t s =
      { state :=
          { durable := .Online
            lastChanged := some t
            cache := some { currentState := .Online, writtenAt := t, ttlRefreshedAt := t }
            generation := s.generation + 1 }
        events := [{ oldState := s.durable, newState := .Online, changedAt := t }]
        writes := 1
        scheduled :=
          [{ fromGeneration := s.generation + 1, targetState := .Timeout,
             fireAt := t + cfg.pollIntervalMs }] } := by
    simp [heartbeatWrite, applyState, hne]
  have hrec := runHeartbeats_zero_timeout_from_online cfg h0 rest
    { durable := .Online
      lastChanged := some t
      cache := some { currentState := .Online, writtenAt := t, ttlRefreshedAt := t }
      generation := s.generation + 1 }
    t rfl (by intro e he; cases he; exact Nat.le_refl t) hchain
  simp only [runHeartbeats, hmiss, hstep]
  refine ⟨?_, by simpa using hrec.2.1, by simpa using hrec.2.2⟩
  have h1 := hrec.1
  simp only [List.length_cons]
  omega

/-- Witness for C7: an `Unknown` device with no cache entry polling at times
10, 20 and 30ms under a zero online-update cache timeout. -/
theorem C7_zero_timeout_always_repersists_witness :
    zCfg.onlineUpdateCacheTimeoutMs = some 0 ∧
    initialTracker.durable ≠ .Online ∧
    writeChain 10 [20, 30] = true ∧
    ((runHeartbeats zCfg initialTracker [10, 20, 30]).2.2 =
        ([10, 20, 30] : List Nat).length ∧
    (runHeartbeats zCfg initialTracker [10, 20, 30]).1.lastChanged = some 10 ∧
    (runHeartbeats zCfg initialTracker [10, 20, 30]).1.durable = .Online) :=
  ⟨rfl, by decide, by decide,
    C7_zero_timeout_always_repersists zCfg initialTracker 10 [20, 30] rfl
      (by decide) (by intro e he; cases he) (by decide)⟩

/-- C8: a state request bearing an invalid or expired credential is rejected
with HTTP 401 before any heartbeat is recorded: no change event is emitted,
no durable write happens, nothing is scheduled, and the tracker state (so the
heartbeat state and its change timestamp) remains exactly as before. -/
theorem C8_rejected_credential (cfg : HeartbeatConfig) (now : Nat)
    (r : DeviceStateRoute) (s : TrackerState) :
    handleStateRequest cfg now r .expiredOrInvalid s =
      (401, { state := s, events := [], writes := 0, scheduled := [] }) := by
  simp [handleStateRequest]

/-- C10: a heartbeat is recorded only by the state GET route authenticated
with a device API key: the same GET with a user token, and the state PATCH
route with any credential, leave the tracker untouched (no events, no
writes, nothing scheduled), so a user-token state poll on a never-seen
device leaves it `Unknown` with a null timestamp, while a device-key GET on
that device records an `Online` heartbeat. -/
theorem C10_heartbeat_only_device_key_get (cfg : HeartbeatConfig) (now : Nat)
    (s : TrackerState) (c : Credential) :
    (handleStateRequest cfg now .stateGet .userToken s).2 =
      { state := s, events := [], writes := 0, scheduled := [] } ∧
    (handleStateRequest cfg now .statePatch c s).2 =
      { state := s, events := [], writes := 0, scheduled := [] } ∧
    (handleStateRequest cfg now .stateGet .userToken initialTracker).2.state.durable
      = .Unknown ∧
    (handleStateRequest cfg now .stateGet .userToken initialTracker).2.state.lastChanged
      = none ∧
    (handleStateRequest cfg now .stateGet .deviceApiKey initialTracker).2.state.durable
      = .Online := by
  refine ⟨?_, ?_, ?_, ?_, ?_⟩
  · simp [handleStateRequest, registersHeartbeat, hasRegisterDeviceStateEvent]
  · cases c <;>
      simp [handleStateRequest, registersHeartbeat, hasRegisterDeviceStateEvent]
  · simp [handleStateRequest, registersHeartbeat, hasRegisterDeviceStateEvent,
      initialTracker]
  · simp [handleStateRequest, registersHeartbeat, hasRegisterDeviceStateEvent,
      initialTracker]
  · simp [handleStateRequest, registersHeartbeat, hasRegisterDeviceStateEvent,
      captureHeartbeat, initialTracker, heartbeatWrite, applyState]

/-- C9: a telemetry-only state patch arriving while a fresh throttle entry
exists in the shared cache — whichever instance wrote the entry, only its
freshness matters — is dropped, leaving the stored metrics unchanged; an
equivalent patch arriving once the window has elapsed and the entry expired
(or when no entry exists) is applied to the durable store. -/
theorem C9_metrics_throttle (ttlMs now w : Nat)
    (stored incoming : DeviceMetrics) :
    (now < w + ttlMs →
      applyMetricsReport ttlMs now (some w) stored incoming = (some w, stored)) ∧
    (w + ttlMs ≤ now →
      applyMetricsReport ttlMs now (some w) stored incoming = (some now, incoming)) ∧
    applyMetricsReport ttlMs now none stored incoming = (some now, incoming) := by
  refine ⟨?_, ?_, ?_⟩
  · intro h
    simp [applyMetricsReport, shouldPersistMetrics, Nat.not_le.mpr h]
  · intro h
    simp [applyMetricsReport, shouldPersistMetrics, h]
  · simp [applyMetricsReport, shouldPersistMetrics]

/-- Witness for C9: a ten-unit window; a patch at 5 with an entry written at
0 is dropped, the same patch at 12 is applied, and a patch with no entry is
applied. -/
theorem C9_metrics_throttle_witness :
    applyMetricsReport 10 5 (some 0) storedM incomingM = (some 0, storedM) ∧
    applyMetricsReport 10 12 (some 0) storedM incomingM = (some 12, incomingM) ∧
    applyMetricsReport 10 5 none storedM incomingM = (some 5, incomingM) :=
  ⟨(C9_metrics_throttle 10 5 0 storedM incomingM).1 (by decide),
    (C9_metrics_throttle 10 12 0 storedM incomingM).2.1 (by decide),
    (C9_metrics_throttle 10 5 0 storedM incomingM).2.2⟩

/-- C5 (documented race): in the scenario of the source's tests — the device
downgraded to `Timeout`, its cache entry deleted out-of-band while the stale
timeout→offline message of generation 1 is pending, then a heartbeat that
bumps the generation to 2 and durably writes `Online` — the spec-mandated
generation check discards the stale message, leaving the device `Online`;
the observed consumer applies the stale message anyway, durably writing
`Offline` and deleting the cache entry, contradicting the claim; the very
next heartbeat nonetheless recovers the device to `Online` (the self-healing
half of the claim holds). -/
theorem C5_stale_offline_race :
    staleRaceState.durable = .Online ∧
    staleRaceState.generation = 2 ∧
    (processDownscaleFired wCfg 4000 staleRaceState
        { fromGeneration := 1, targetState := .Offline, fireAt := 4000 }).state =
      staleRaceState ∧
    (processDownscaleFiredObserved wCfg 4000 staleRaceState
        { fromGeneration := 1, targetState := .Offline, fireAt := 4000 }).state.durable =
      .Offline ∧
    (processDownscaleFiredObserved wCfg 4000 staleRaceState
        { fromGeneration := 1, targetState := .Offline, fireAt := 4000 }).state.cache =
      none ∧
    (captureHeartbeat wCfg 4500
        (processDownscaleFiredObserved wCfg 4000 staleRaceState
          { fromGeneration := 1, targetState := .Offline, fireAt := 4000 }).state).state.durable =
      .Online := by
  decide

end DeviceHeartbeat
